import Mathlib

/-!
Verification of the DDP (device discovery protocol) core of the repository:
the message codec (`get_ddp_message`, `parse_ddp_response`), the async
engine (`DDPProtocol.send_msg`, `DDPProtocol._handle`, callback registry)
and the one-shot `search` loop, shallowly embedded from
`src/components/psremoteplay/ddp.py`.

Python dictionaries are modelled as association lists with unique keys and
Python's insertion-order update discipline (`dset`); Python dict equality
(order-insensitive) is `dictBeq`.  Exceptions (IndexError, KeyError,
TypeError) are modelled with `Except Unit`.  Wall-clock time is an explicit
`Nat` argument threaded through the stateful operations.
-/

/-- Values stored in a decoded status mapping: `status_code` is a Python
int, everything else a string. -/
inductive DVal where
  | int (n : Int)
  | str (s : String)
deriving DecidableEq

/-- A Python dict with string keys, in insertion order. -/
abbrev DDPDict := List (String × DVal)

/-- Python `d[k]` lookup returning `none` when absent (`d.get(k)`). -/
def dget (d : DDPDict) (k : String) : Option DVal :=
  match d with
  | [] => none
  | (k1, v) :: rest => if k1 = k then some v else dget rest k

/-- Python `d[k] = v`: update in place if the key exists, else append. -/
def dset (d : DDPDict) (k : String) (v : DVal) : DDPDict :=
  match d with
  | [] => [(k, v)]
  | (k1, v1) :: rest => if k1 = k then (k, v) :: rest else (k1, v1) :: dset rest k v

/-- Python dict equality: same keys with the same values, order-insensitive. -/
def dictBeq (d1 d2 : DDPDict) : Bool :=
  (d1.map Prod.fst).all (fun k => dget d1 k == dget d2 k) &&
  (d2.map Prod.fst).all (fun k => dget d2 k == dget d1 k)

-- Constants from the top of ddp.py.
def DDP_VERSION : String := "00020020"

def DDP_TYPE_SEARCH : String := "SRCH"

def DDP_TYPE_LAUNCH : String := "LAUNCH"

def DDP_TYPE_WAKEUP : String := "WAKEUP"

def DDP_MSG_TYPES : List String := [DDP_TYPE_SEARCH, DDP_TYPE_LAUNCH, DDP_TYPE_WAKEUP]

def DEFAULT_POLL_COUNT : Nat := 5

def DEFAULT_STANDBY_DELAY : Nat := 50

def STATUS_OK : Int := 200

def STATUS_STANDBY : Int := 620

-- String keys used by the parser and the engine.
def keyStatusCode : String := "status_code"

def keyStatus : String := "status"

def keyHostIp : String := "host-ip"

def keyRunningAppName : String := "running-app-name"

def patRunningAppNameColon : String := "running-app-name:"

/-- Whether `p` occurs as a contiguous substring of `s` (Python `p in s`),
over explicit character lists. -/
def hasSubstrChars (p : List Char) : List Char → Bool
  | [] => p.isEmpty
  | c :: cs => List.isPrefixOf p (c :: cs) || hasSubstrChars p cs

/-- Python `pat in s` on strings. -/
def pyIn (pat s : String) : Bool := hasSubstrChars pat.data s.data

/-- Split a character list at every occurrence of `c` (Python
`str.split(sep)` for a one-character separator); `acc` holds the current
piece reversed. -/
def splitOnCharAux (c : Char) : List Char → List Char → List (List Char)
  | [], acc => [acc.reverse]
  | x :: xs, acc =>
    if x = c then acc.reverse :: splitOnCharAux c xs []
    else splitOnCharAux c xs (x :: acc)

def splitOnChar (c : Char) (cs : List Char) : List (List Char) :=
  splitOnCharAux c cs []

/-- Drop the trailing empty piece a terminal separator leaves behind
(Python `splitlines` emits no empty final line for text ending in `\n`). -/
def dropTrailingEmpty (parts : List (List Char)) : List (List Char) :=
  if parts.getLast? = some [] then parts.dropLast else parts

/-- Python `str.splitlines()` for `\n`-separated text (the only line
terminator appearing in this protocol): split on every newline and drop
the trailing empty piece left by a terminal newline; the empty string has
no lines. -/
def pySplitlines (s : String) : List String :=
  if s.data.isEmpty then []
  else (dropTrailingEmpty (splitOnChar '\n' s.data)).map (fun cs => String.mk cs)

/-- Python `str.strip()`: drop whitespace from both ends. -/
def pyStrip (s : String) : String :=
  String.mk ((((s.data.dropWhile Char.isWhitespace).reverse).dropWhile Char.isWhitespace).reverse)

/-- Python `str.replace(pat, rep)` (all non-overlapping occurrences, left
to right), by fuel over the string length. -/
def pyReplaceAux : Nat → List Char → List Char → List Char → List Char
  | 0, _, _, s => s
  | fuel + 1, p, r, s =>
    match s with
    | [] => []
    | c :: cs =>
      if List.isPrefixOf p (c :: cs) then r ++ pyReplaceAux fuel p r ((c :: cs).drop p.length)
      else c :: pyReplaceAux fuel p r cs

def pyReplace (s pat rep : String) : String :=
  if pat.data.isEmpty then s
  else String.mk (pyReplaceAux s.data.length pat.data rep.data s.data)

/-- Digits of the regex group `code` converted by Python `int`. -/
def digitsToNat (ds : List Char) : Nat :=
  ds.foldl (fun a c => 10 * a + (c.toNat - 48)) 0

/-- The regex `r'HTTP/1.1 (?P<code>\d+) (?P<status>.*)'` applied with
`re.match` (anchored at the start): literal `HTTP/1`, one wildcard
character for the unescaped dot, literal `1 `, then a maximal nonempty
digit run, a space, and the rest of the line as the `status` group. -/
def matchStatusLine (line : String) : Option (Int × String) :=
  match line.data with
  | 'H' :: 'T' :: 'T' :: 'P' :: '/' :: '1' :: _ :: '1' :: ' ' :: rest =>
    let ds := rest.takeWhile Char.isDigit
    if ds.isEmpty then none
    else
      match rest.dropWhile Char.isDigit with
      | ' ' :: st => some ((digitsToNat ds : Int), String.mk st)
      | _ => none
  | _ => none

/-- The `if 'running-app-name' in line:` capture at the top of the line
loop, applied to the raw (unstripped) line. -/
def captureAppName (prev : Option String) (line : String) : Option String :=
  if pyIn keyRunningAppName line then some (pyReplace line patRunningAppNameColon (""))
  else prev

/-- One iteration of the line loop of `parse_ddp_response`: thread the
`(data, app_name)` pair, raising IndexError (`Except.error ()`) at
`values[1]` when a non-empty stripped line neither matches the status
regex nor contains a colon. -/
def processLine (acc : DDPDict × Option String) (line : String) :
    Except Unit (DDPDict × Option String) :=
  if (pyStrip line).data.isEmpty then Except.ok (acc.1, captureAppName acc.2 line)
  else
    match matchStatusLine (pyStrip line) with
    | some (code, st) =>
      Except.ok (dset (dset acc.1 keyStatusCode (DVal.int code)) keyStatus (DVal.str st),
                 captureAppName acc.2 line)
    | none =>
      match (splitOnChar ':' (pyStrip line).data).map (fun cs => String.mk cs) with
      | v0 :: v1 :: _ => Except.ok (dset acc.1 v0 (DVal.str v1), captureAppName acc.2 line)
      | _ => Except.error ()

/-- `parse_ddp_response(rsp)`: short-circuit to the empty mapping when the
SEARCH token occurs anywhere, else run the line loop and finally override
`running-app-name` with the captured whole-line value. -/
def parse_ddp_response (rsp : String) : Except Unit DDPDict :=
  if pyIn DDP_TYPE_SEARCH rsp then Except.ok []
  else
    match (pySplitlines rsp).foldlM processLine ([], none) with
    | Except.error e => Except.error e
    | Except.ok (data, app_name) =>
      match app_name with
      | some an => Except.ok (dset data keyRunningAppName (DVal.str an))
      | none => Except.ok data

/-- `get_ddp_message(msg_type, data)`: TypeError (`Except.error ()`) on an
unrecognized type, else the type line, the headers in order, and the fixed
protocol-version header. -/
def get_ddp_message (msg_type : String) (data : Option (List (String × String))) :
    Except Unit String :=
  if msg_type ∈ DDP_MSG_TYPES then
    let msg := msg_type ++ " * HTTP/1.1\n"
    let msg :=
      match data with
      | none => msg
      | some kvs => kvs.foldl (fun m kv => m ++ kv.1 ++ ":" ++ kv.2 ++ "\n") msg
    Except.ok (msg ++ "device-discovery-protocol-version:" ++ DDP_VERSION ++ "\n")
  else Except.error ()

def get_ddp_search_message : Except Unit String :=
  get_ddp_message DDP_TYPE_SEARCH none

def get_ddp_wake_message (credential : String) : Except Unit String :=
  get_ddp_message DDP_TYPE_WAKEUP
    (some [("user-credential", credential), ("client-type", "a"), ("auth-type", "C")])

def get_ddp_launch_message (credential : String) : Except Unit String :=
  get_ddp_message DDP_TYPE_LAUNCH
    (some [("user-credential", credential), ("client-type", "a"), ("auth-type", "C")])

/-!
## The engine: `DDPProtocol`

In Python the callback registry `self.callbacks` maps a host string to a
dict keyed by the mutable `ps5` object itself.  We model object identity
with a `Nat` id, keep the mutable records in a heap (`devices`) and let the
registry map a host to an association list of `(device id, callback id)`.
Callbacks are opaque; an invocation is recorded by emitting its id.
-/

/-- A caller-owned device object: the mutable fields `status`,
`poll_count`, `unreachable` of a `ps5`, plus its `host` and identity. -/
structure PS5 where
  id : Nat
  host : String
  status : Option DDPDict
  poll_count : Nat
  unreachable : Bool
deriving DecidableEq

/-- The registry `self.callbacks`: host → (device id → callback id). -/
abbrev Callbacks := List (String × List (Nat × Nat))

/-- Lookup in a Python dict modelled as an association list. -/
def aget {κ α : Type} [DecidableEq κ] (m : List (κ × α)) (k : κ) : Option α :=
  match m with
  | [] => none
  | (k1, v) :: rest => if k1 = k then some v else aget rest k

/-- Python `m[k] = v`: update in place if present, else append. -/
def aset {κ α : Type} [DecidableEq κ] (m : List (κ × α)) (k : κ) (v : α) : List (κ × α) :=
  match m with
  | [] => [(k, v)]
  | (k1, v1) :: rest => if k1 = k then (k, v) :: rest else (k1, v1) :: aset rest k v

/-- Python `m.pop(k)`: drop the entry for `k`. -/
def apop {κ α : Type} [DecidableEq κ] (m : List (κ × α)) (k : κ) : List (κ × α) :=
  match m with
  | [] => []
  | (k1, v) :: rest => if k1 = k then rest else (k1, v) :: apop rest k

/-- The mutable state of one `DDPProtocol` instance.  `standby_start` is
the single engine-level field `self._standby_start` (0 when cleared). -/
structure DDPProtocol where
  callbacks : Callbacks
  devices : List PS5
  max_polls : Nat
  standby_start : Nat
deriving DecidableEq

/-- Dereference a device object by identity. -/
def getDev (devs : List PS5) (i : Nat) : Option PS5 :=
  match devs with
  | [] => none
  | d :: rest => if d.id = i then some d else getDev rest i

/-- Write back a mutated device object (matched by identity). -/
def setDev (devs : List PS5) (p : PS5) : List PS5 :=
  devs.map (fun d => if d.id = p.id then p else d)

/-- The `polls_disabled` property's test: true while less than
`DEFAULT_STANDBY_DELAY` has elapsed since `_standby_start`.  (The Python
property also clears `_standby_start` as a side effect when it returns
false; `send_msg` — its only caller — immediately repeats that write with
its own `self._standby_start = 0`, so the clearing is folded into
`send_msg` below.) -/
def polls_disabled (st : DDPProtocol) (now : Nat) : Bool :=
  now - st.standby_start < DEFAULT_STANDBY_DELAY

/-- Result of one `send_msg` call: the new engine state, the callback ids
invoked (in order), and whether a datagram was transmitted. -/
structure SendResult where
  state : DDPProtocol
  fired : List Nat
  transmitted : Bool
deriving DecidableEq

/-- The callback invocation at the end of `send_msg`:
`if ps5.host in self.callbacks: callback = self.callbacks[ps5.host].get(ps5);
if callback is not None: callback()`. -/
def sendFired (cbs : Callbacks) (host : String) (devId : Nat) : List Nat :=
  match aget cbs host with
  | none => []
  | some owners =>
    match aget owners devId with
    | none => []
    | some cb => [cb]

/-- `DDPProtocol.send_msg(ps5)`: return early while polls are disabled;
otherwise clear the standby window, transmit, increment the device's
`poll_count`, and when it exceeds `max_polls` set `unreachable` (the flag
assignment alone is guarded by `if not ps5.unreachable`), null the status
and invoke the callback registered for this host and object — the
invocation is unconditional in that branch.  A device id absent from the
heap corresponds to no Python state and leaves the heap untouched. -/
def send_msg (st : DDPProtocol) (devId : Nat) (now : Nat) : SendResult :=
  if polls_disabled st now then { state := st, fired := [], transmitted := false }
  else
    match getDev st.devices devId with
    | none => { state := { st with standby_start := 0 }, fired := [], transmitted := true }
    | some ps5 =>
      if ps5.poll_count + 1 > st.max_polls then
        { state :=
            { st with
              standby_start := 0,
              devices := setDev st.devices
                { ps5 with
                  poll_count := ps5.poll_count + 1,
                  unreachable := true,
                  status := none } },
          fired := sendFired st.callbacks ps5.host devId, transmitted := true }
      else
        { state :=
            { st with
              standby_start := 0,
              devices := setDev st.devices { ps5 with poll_count := ps5.poll_count + 1 } },
          fired := [], transmitted := true }

/-- Python `old_status != data` where `old_status` may be `None`. -/
def statusNe (old : Option DDPDict) (data : DDPDict) : Bool :=
  match old with
  | none => true
  | some o => !(dictBeq o data)

/-- The OK→STANDBY transition test of `_handle`: `old_status is not None
and old_status.get('status_code') == STATUS_OK and
ps5.status.get('status_code') == STATUS_STANDBY` (where `ps5.status` has
just been assigned `data`). -/
def okToStandby (old : Option DDPDict) (data : DDPDict) : Bool :=
  match old with
  | some o => (dget o keyStatusCode == some (DVal.int STATUS_OK)) &&
              (dget data keyStatusCode == some (DVal.int STATUS_STANDBY))
  | none => false

/-- The body of the per-owner loop in `DDPProtocol._handle`: reset
`poll_count` and `unreachable`, store the new status, and when it differs
from the old one invoke the callback and, on an OK→STANDBY transition of
the status code, write `now` into the engine-level `_standby_start`. -/
def handleOwner (now : Nat) (data : DDPDict) (acc : DDPProtocol × List Nat)
    (entry : Nat × Nat) : DDPProtocol × List Nat :=
  match getDev acc.1.devices entry.1 with
  | none => acc
  | some ps5 =>
    if statusNe ps5.status data then
      (if okToStandby ps5.status data then
         { acc.1 with
           devices := setDev acc.1.devices
             { ps5 with poll_count := 0, unreachable := false, status := some data },
           standby_start := now }
       else
         { acc.1 with
           devices := setDev acc.1.devices
             { ps5 with poll_count := 0, unreachable := false, status := some data } },
       acc.2 ++ [entry.2])
    else
      ({ acc.1 with
         devices := setDev acc.1.devices
           { ps5 with poll_count := 0, unreachable := false, status := some data } },
       acc.2)

/-- Result of one `_handle` call (reached from `datagram_received`). -/
structure HandleResult where
  state : DDPProtocol
  fired : List Nat
deriving DecidableEq

/-- `DDPProtocol._handle(data, addr)`: decode (exceptions propagate), attach
`host-ip`, and iterate over the owners registered for the source address;
a source with no registered owners is ignored. -/
def handle (st : DDPProtocol) (rsp : String) (addr : String) (now : Nat) :
    Except Unit HandleResult :=
  match parse_ddp_response rsp with
  | Except.error e => Except.error e
  | Except.ok d =>
    match aget st.callbacks addr with
    | none => Except.ok { state := st, fired := [] }
    | some owners =>
      Except.ok
        { state := (owners.foldl (handleOwner now (dset d keyHostIp (DVal.str addr))) (st, [])).1,
          fired := (owners.foldl (handleOwner now (dset d keyHostIp (DVal.str addr))) (st, [])).2 }

/-- `DDPProtocol.add_callback(ps5, callback)`: create the host's dict when
missing, then register the callback under the device object. -/
def add_callback (cbs : Callbacks) (host : String) (devId cbId : Nat) : Callbacks :=
  let cbs := if (aget cbs host).isNone then aset cbs host [] else cbs
  let inner := (aget cbs host).getD []
  aset cbs host (aset inner devId cbId)

/-- `DDPProtocol.remove_callback(ps5, callback)`: no-op when the host has no
entry; otherwise `self.callbacks[ps5.host][ps5]` raises KeyError
(`Except.error ()`) when the device object is not a key; when the recorded
callback matches, drop the entry and drop the host key once empty. -/
def remove_callback (cbs : Callbacks) (host : String) (devId cbId : Nat) :
    Except Unit Callbacks :=
  match aget cbs host with
  | none => Except.ok cbs
  | some inner =>
    match aget inner devId with
    | none => Except.error ()
    | some cb1 =>
      if cb1 = cbId then
        let inner2 := apop inner devId
        if inner2.isEmpty then Except.ok (apop cbs host)
        else Except.ok (aset cbs host inner2)
      else Except.ok cbs

/-!
## The one-shot `search` loop

The receive loop of `search(host, ...)` is driven by wall-clock timeout;
we model the sequence of `_recv_msg` outcomes inside the window as a list
(`none` = no datagram ready in this iteration).  `isBroadcast` is
`host == BROADCAST_IP`; a unicast search breaks after the first response.
-/

def dictIn (d : DDPDict) (l : List DDPDict) : Bool :=
  l.any (fun x => dictBeq x d)

/-- The accumulation step of `search`: `if data not in ps_list and data:`
(the membership test runs against the already-decorated entries of
`ps_list` while `data` does not yet carry `host-ip`), then decorate and
append. -/
def searchAcc (acc : List DDPDict) (d : DDPDict) (addr : String) : List DDPDict :=
  if !(dictIn d acc) && !d.isEmpty then acc ++ [dset d keyHostIp (DVal.str addr)]
  else acc

/-- The body of the `while` loop of `search`: parse each response, apply
`searchAcc`, and for a unicast target stop after the first response. -/
def searchGo (isBroadcast : Bool) :
    List (Option (String × String)) → List DDPDict → Except Unit (List DDPDict)
  | [], acc => Except.ok acc
  | none :: rest, acc => searchGo isBroadcast rest acc
  | some (raw, addr) :: rest, acc =>
    match parse_ddp_response raw with
    | Except.error e => Except.error e
    | Except.ok d =>
      if isBroadcast then searchGo isBroadcast rest (searchAcc acc d addr)
      else Except.ok (searchAcc acc d addr)

/-- `search(host, ...)` restricted to its response-processing behaviour:
fold the received datagrams of the timeout window into the result list. -/
def search (responses : List (Option (String × String))) (isBroadcast : Bool) :
    Except Unit (List DDPDict) :=
  searchGo isBroadcast responses []

/-!
## Concrete engine states, response texts and specification functions

The remaining definitions are concrete scenario states used by the
theorems below, plus the specification-side functions (`firedSpec`,
`goodLine`, the built message texts) that the theorems compare the
embedded code against.
-/

def devC1 : PS5 :=
  { id := 0, host := "h", status := some [("k", DVal.str ("v"))], poll_count := 0,
    unreachable := false }

def stC1 : DDPProtocol :=
  { callbacks := [("h", [(0, 7)])], devices := [devC1], max_polls := 1, standby_start := 0 }

def devC1w : PS5 :=
  { id := 0, host := "h", status := none, poll_count := 2, unreachable := true }

def stC1w : DDPProtocol :=
  { callbacks := [("h", [(0, 7)])], devices := [devC1w], max_polls := 1, standby_start := 0 }

def devC3 : PS5 :=
  { id := 0, host := "h", status := some [(keyStatusCode, DVal.int 200)], poll_count := 3,
    unreachable := false }

def stC3 : DDPProtocol :=
  { callbacks := [("h", [(0, 9)])], devices := [devC3], max_polls := 5, standby_start := 0 }

def rspC3 : String := "HTTP/1.1 620 Standby"

def dataC3 : DDPDict :=
  [(keyStatusCode, DVal.int 620), (keyStatus, DVal.str ("Standby")), (keyHostIp, DVal.str ("h"))]

def devC3b : PS5 :=
  { id := 0, host := "h", status := some dataC3, poll_count := 0, unreachable := false }

def stC3b : DDPProtocol :=
  { callbacks := [("h", [(0, 9)])], devices := [devC3b], max_polls := 5, standby_start := 1000 }

def devC4a : PS5 :=
  { id := 0, host := "h1", status := some [(keyStatusCode, DVal.int 200)], poll_count := 0,
    unreachable := false }

def devC4b : PS5 :=
  { id := 1, host := "h2", status := some [(keyStatusCode, DVal.int 200)], poll_count := 0,
    unreachable := false }

def stC4 : DDPProtocol :=
  { callbacks := [("h1", [(0, 3)]), ("h2", [(1, 4)])], devices := [devC4a, devC4b],
    max_polls := 5, standby_start := 0 }

def dataC4 : DDPDict :=
  [(keyStatusCode, DVal.int 620), (keyStatus, DVal.str ("Standby")), (keyHostIp, DVal.str ("h1"))]

def stC4b : DDPProtocol :=
  { callbacks := [("h1", [(0, 3)]), ("h2", [(1, 4)])],
    devices := [{ devC4a with poll_count := 0, unreachable := false, status := some dataC4 },
                devC4b],
    max_polls := 5, standby_start := 1000 }

def stC4w : DDPProtocol :=
  { callbacks := [], devices := [], max_polls := 5, standby_start := 500 }

/-- The callbacks that one `_handle` iteration over `owners` invokes, read
off the pre-handle heap: owner `(i, cb)` fires exactly when its device's
previous status differs (Python `!=`, i.e. order-insensitive dict
inequality, with `None` unequal to every dict) from the freshly decoded
`data`. -/
def firedSpec (devs : List PS5) (data : DDPDict) : List (Nat × Nat) → List Nat
  | [] => []
  | e :: rest =>
    match getDev devs e.1 with
    | none => firedSpec devs data rest
    | some p =>
      if statusNe p.status data then e.2 :: firedSpec devs data rest
      else firedSpec devs data rest

def devW2 : PS5 :=
  { id := 0, host := "10.0.0.5", status := none, poll_count := 3, unreachable := true }

def stW2 : DDPProtocol :=
  { callbacks := [("10.0.0.5", [(0, 11)])], devices := [devW2], max_polls := 5,
    standby_start := 0 }

def dW2 : DDPDict :=
  [(keyStatusCode, DVal.int 200), (keyStatus, DVal.str ("Ok")), ("host-id", DVal.str ("abc"))]

/-- A line the parser handles without raising: empty once stripped, or a
status line, or containing a colon. -/
def goodLine (l : String) : Bool :=
  (pyStrip l).data.isEmpty || (matchStatusLine (pyStrip l)).isSome ||
    (pyStrip l).data.contains ':'

/-- The text `get_ddp_message(WAKEUP, ...)` builds, with the appends in
the order the Python concatenations perform them. -/
def wakeMsgText (credential : String) : String :=
  DDP_TYPE_WAKEUP ++ " * HTTP/1.1\n" ++ "user-credential" ++ ":" ++ credential ++ "\n" ++
    "client-type" ++ ":" ++ "a" ++ "\n" ++ "auth-type" ++ ":" ++ "C" ++ "\n" ++
    "device-discovery-protocol-version:" ++ DDP_VERSION ++ "\n"

/-- The text `get_ddp_message(LAUNCH, ...)` builds. -/
def launchMsgText (credential : String) : String :=
  DDP_TYPE_LAUNCH ++ " * HTTP/1.1\n" ++ "user-credential" ++ ":" ++ credential ++ "\n" ++
    "client-type" ++ ":" ++ "a" ++ "\n" ++ "auth-type" ++ ":" ++ "C" ++ "\n" ++
    "device-discovery-protocol-version:" ++ DDP_VERSION ++ "\n"

def rspC8 : String := "HTTP/1.1 200 Ok\nhost-id:123456"

def dC8 : DDPDict :=
  [(keyStatusCode, DVal.int 200), (keyStatus, DVal.str ("Ok")),
   ("host-id", DVal.str ("123456")), (keyHostIp, DVal.str ("10.0.0.1"))]

def stC10 : DDPProtocol :=
  { callbacks := [("h", [(0, 7)])], devices := [devC1], max_polls := 5, standby_start := 0 }

/-!
## Heap lemmas
-/

theorem getDev_eq_id : ∀ {devs : List PS5} {i : Nat} {p : PS5},
    getDev devs i = some p → p.id = i := by
  intro devs
  induction devs with
  | nil => intro i p h; simp [getDev] at h
  | cons d rest ih =>
    intro i p h
    simp only [getDev] at h
    split at h
    · rename_i hd
      injection h with h
      subst h
      exact hd
    · exact ih h

theorem getDev_setDev_other {q : PS5} {i : Nat} (h : q.id ≠ i) :
    ∀ (devs : List PS5), getDev (setDev devs q) i = getDev devs i := by
  intro devs
  induction devs with
  | nil => rfl
  | cons d rest ih =>
    simp only [setDev, List.map_cons] at *
    by_cases hd : d.id = q.id
    · simp only [if_pos hd, getDev, if_neg h, if_neg (hd ▸ (fun he => h (hd ▸ he)) : ¬ d.id = i)]
      exact ih
    · simp only [if_neg hd, getDev]
      split
      · rfl
      · exact ih

theorem getDev_setDev_same : ∀ {devs : List PS5} {i : Nat} {p : PS5} (q : PS5),
    getDev devs i = some p → q.id = i → getDev (setDev devs q) i = some q := by
  intro devs
  induction devs with
  | nil => intro i p q h _; simp [getDev] at h
  | cons d rest ih =>
    intro i p q h hq
    simp only [getDev] at h
    simp only [setDev, List.map_cons]
    by_cases hd : d.id = i
    · have hdq : d.id = q.id := by rw [hd, hq]
      simp only [if_pos hdq, getDev, if_pos hq]
    · rw [if_neg hd] at h
      by_cases hdq : d.id = q.id
      · exact absurd (hdq.trans hq) hd
      · simp only [if_neg hdq, getDev, if_neg hd]
        exact ih q h hq

theorem polls_disabled_true {st : DDPProtocol} {now : Nat}
    (h : now - st.standby_start < DEFAULT_STANDBY_DELAY) : polls_disabled st now = true := by
  simp [polls_disabled, h]

theorem polls_disabled_false {st : DDPProtocol} {now : Nat}
    (h : ¬ (now - st.standby_start < DEFAULT_STANDBY_DELAY)) : polls_disabled st now = false := by
  simp [polls_disabled, h]

/-!
## C1 — unreachable detection on consecutive unanswered sends
-/

/-- C1 counterexample: engine with `maxPolls = 1` and one registered
callback (id 7).  The first send fires nothing, the second (the
`maxPolls + 1`-th) fires the callback — and a third consecutive unanswered
send fires the very same callback AGAIN, refuting the claim that a further
unanswered send does not fire it (the invocation in `send_msg` is not
guarded by the unreachable transition). -/
theorem c1_counterexample :
    (send_msg stC1 0 100).fired = [] ∧
    (send_msg (send_msg stC1 0 100).state 0 100).fired = [7] ∧
    (send_msg (send_msg (send_msg stC1 0 100).state 0 100).state 0 100).fired = [7] :=
  ⟨rfl, rfl, rfl⟩

/-- C1 (amended): on every consecutive unanswered send whose incremented
`pollCount` exceeds `maxPolls` — the `maxPolls + 1`-th and every later one
alike — the device's `unreachable` flag is (re)set to true, its status is
cleared to null, and the callback registered for its (host, object) pair
fires once per such send; the notification is level-triggered past the
threshold, not edge-triggered (only the flag assignment and the log line
are guarded by the transition). -/
theorem send_msg_past_threshold (st : DDPProtocol) (i cb now : Nat) (ps5 : PS5)
    (owners : List (Nat × Nat))
    (hdev : getDev st.devices i = some ps5)
    (hhost : aget st.callbacks ps5.host = some owners)
    (hcb : aget owners i = some cb)
    (hen : DEFAULT_STANDBY_DELAY ≤ now - st.standby_start)
    (hth : st.max_polls < ps5.poll_count + 1) :
    (send_msg st i now).transmitted = true ∧
    (send_msg st i now).fired = [cb] ∧
    getDev (send_msg st i now).state.devices i =
      some { ps5 with poll_count := ps5.poll_count + 1, unreachable := true, status := none } := by
  have hdis : ¬ (now - st.standby_start < DEFAULT_STANDBY_DELAY) := not_lt.mpr hen
  have hcond : ¬ (polls_disabled st now = true) := by
    rw [polls_disabled_false hdis]
    exact Bool.false_ne_true
  have hid : ps5.id = i := getDev_eq_id hdev
  unfold send_msg
  rw [if_neg hcond]
  simp only [hdev]
  rw [if_pos hth]
  refine ⟨rfl, ?_, ?_⟩
  · simp only [sendFired, hhost, hcb]
  · exact getDev_setDev_same _ hdev hid

/-- Witness for `send_msg_past_threshold`: a device already unreachable
(poll count 2 with `maxPolls = 1`) still fires callback 7 on the next
unanswered send. -/
theorem send_msg_past_threshold_witness :
    (send_msg stC1w 0 100).transmitted = true ∧
    (send_msg stC1w 0 100).fired = [7] ∧
    getDev (send_msg stC1w 0 100).state.devices 0 =
      some { devC1w with poll_count := devC1w.poll_count + 1, unreachable := true,
                         status := none } :=
  send_msg_past_threshold stC1w 0 7 100 devC1w [(0, 7)] rfl rfl rfl (by decide) (by decide)

/-!
## C3 — standby window gates sendPoll
-/

/-- C3: once a received status transition has left the engine with the
standby window starting at `t`, a `sendPoll` at `t2` with `t2 - t` below
`standbyDelaySeconds` transmits nothing and leaves the whole engine state
(in particular every `pollCount`) unchanged, while a `sendPoll` with
`t2 - t` at least the delay clears the window, transmits, and increments
the device's `pollCount`. -/
theorem standby_window_gates_send (st0 st : DDPProtocol) (rsp addr : String)
    (t t2 i : Nat) (fired : List Nat) (ps5 : PS5)
    (_hh : handle st0 rsp addr t = Except.ok { state := st, fired := fired })
    (hs : st.standby_start = t)
    (_ht : t ≤ t2)
    (hdev : getDev st.devices i = some ps5) :
    (t2 - t < DEFAULT_STANDBY_DELAY →
      send_msg st i t2 = { state := st, fired := [], transmitted := false }) ∧
    (DEFAULT_STANDBY_DELAY ≤ t2 - t →
      (send_msg st i t2).transmitted = true ∧
      (send_msg st i t2).state.standby_start = 0 ∧
      ∃ q, getDev (send_msg st i t2).state.devices i = some q ∧
           q.poll_count = ps5.poll_count + 1) := by
  constructor
  · intro hlt
    have hdis : t2 - st.standby_start < DEFAULT_STANDBY_DELAY := by rw [hs]; exact hlt
    unfold send_msg
    rw [if_pos (polls_disabled_true hdis)]
  · intro hge
    have hdis : ¬ (t2 - st.standby_start < DEFAULT_STANDBY_DELAY) := by
      rw [hs]; exact not_lt.mpr hge
    have hcond : ¬ (polls_disabled st t2 = true) := by
      rw [polls_disabled_false hdis]
      exact Bool.false_ne_true
    have hid : ps5.id = i := getDev_eq_id hdev
    unfold send_msg
    rw [if_neg hcond]
    simp only [hdev]
    by_cases hth : ps5.poll_count + 1 > st.max_polls
    · rw [if_pos hth]
      refine ⟨rfl, rfl, ?_⟩
      exact ⟨_, getDev_setDev_same _ hdev hid, rfl⟩
    · rw [if_neg hth]
      refine ⟨rfl, rfl, ?_⟩
      exact ⟨_, getDev_setDev_same _ hdev hid, rfl⟩

/-- Witness for `standby_window_gates_send`: after the concrete OK→STANDBY
receive at time 1000, a send at 1010 is fully suppressed and a send at
1050 transmits and bumps the poll count. -/
theorem standby_window_gates_send_witness :
    send_msg stC3b 0 1010 = { state := stC3b, fired := [], transmitted := false } ∧
    ((send_msg stC3b 0 1050).transmitted = true ∧
      (send_msg stC3b 0 1050).state.standby_start = 0 ∧
      ∃ q, getDev (send_msg stC3b 0 1050).state.devices 0 = some q ∧
           q.poll_count = devC3b.poll_count + 1) :=
  ⟨(standby_window_gates_send stC3 stC3b rspC3 ("h") 1000 1010 0 [9] devC3b rfl rfl
      (by decide) rfl).1 (by decide),
   (standby_window_gates_send stC3 stC3b rspC3 ("h") 1000 1050 0 [9] devC3b rfl rfl
      (by decide) rfl).2 (by decide)⟩

/-!
## C4 — scope of the standby window
-/

/-- C4 counterexample: host `h1` transitions OK→STANDBY at time 1000; a
subsequent `sendPoll` to the device of the DIFFERENT host `h2` at time
1010 performs no transmission, refuting the claim that the window does not
suppress sends to other hosts of the same engine (`_standby_start` is one
engine-level field). -/
theorem c4_counterexample :
    handle stC4 rspC3 ("h1") 1000 = Except.ok { state := stC4b, fired := [3] } ∧
    send_msg stC4b 1 1010 = { state := stC4b, fired := [], transmitted := false } :=
  ⟨rfl, rfl⟩

theorem foldl_handleOwner_standby (now : Nat) (data : DDPDict) :
    ∀ (owners : List (Nat × Nat)) (acc : DDPProtocol × List Nat),
      (owners.foldl (handleOwner now data) acc).1.standby_start = now ∨
      (owners.foldl (handleOwner now data) acc).1.standby_start = acc.1.standby_start := by
  intro owners
  induction owners with
  | nil => intro acc; right; rfl
  | cons e rest ih =>
    intro acc
    rw [List.foldl_cons]
    have hstep : (handleOwner now data acc e).1.standby_start = now ∨
        (handleOwner now data acc e).1.standby_start = acc.1.standby_start := by
      cases hg : getDev acc.1.devices e.1 with
      | none => right; simp only [handleOwner, hg]
      | some p =>
        simp only [handleOwner, hg]
        by_cases hne : statusNe p.status data = true
        · rw [if_pos hne]
          by_cases hok : okToStandby p.status data = true
          · rw [if_pos hok]
            left
            rfl
          · rw [if_neg hok]
            right
            rfl
        · rw [if_neg hne]
          right
          rfl
    rcases ih (handleOwner now data acc e) with h | h
    · left; exact h
    · rcases hstep with h2 | h2
      · left; rw [h, h2]
      · right; rw [h, h2]

/-- C4 (amended): the standby-suppression window is engine-global, not
scoped to the transitioning host — while `now - standbySince` is below
`standbyDelaySeconds`, `sendPoll` transmits nothing for EVERY device of
the engine, whatever its host; and handling one datagram writes the single
engine-level `standbySince` field at most once observably (every
qualifying owner writes the same current time), so after any receive the
field is either unchanged or equal to the receive time. -/
theorem standby_engine_global :
    (∀ (st : DDPProtocol) (i now : Nat),
      now - st.standby_start < DEFAULT_STANDBY_DELAY →
      send_msg st i now = { state := st, fired := [], transmitted := false }) ∧
    (∀ (st : DDPProtocol) (rsp addr : String) (now : Nat) (r : HandleResult),
      handle st rsp addr now = Except.ok r →
      r.state.standby_start = now ∨ r.state.standby_start = st.standby_start) := by
  constructor
  · intro st i now hdis
    unfold send_msg
    rw [if_pos (polls_disabled_true hdis)]
  · intro st rsp addr now r h
    unfold handle at h
    cases hp : parse_ddp_response rsp with
    | error e => rw [hp] at h; exact absurd h (by simp)
    | ok d =>
      simp only [hp] at h
      cases ha : aget st.callbacks addr with
      | none =>
        simp only [ha] at h
        injection h with h
        right
        rw [← h]
      | some owners =>
        simp only [ha] at h
        injection h with h
        rw [← h]
        exact foldl_handleOwner_standby now _ owners (st, [])

/-- Witness for `standby_engine_global` at a concrete engine state. -/
theorem standby_engine_global_witness :
    send_msg stC4w 0 510 = { state := stC4w, fired := [], transmitted := false } ∧
    (({ state := stC4w, fired := [] } : HandleResult).state.standby_start = 7 ∨
      ({ state := stC4w, fired := [] } : HandleResult).state.standby_start =
        stC4w.standby_start) :=
  ⟨standby_engine_global.1 stC4w 0 510 (by decide),
   standby_engine_global.2 stC4w ("HTTP/1.1 200 Ok\na:b") ("z") 7
     { state := stC4w, fired := [] } rfl⟩

/-!
## C2 — receive resets counters and dispatches on status change
-/

theorem firedSpec_congr (data : DDPDict) :
    ∀ (owners : List (Nat × Nat)) (devs devs2 : List PS5),
    (∀ e ∈ owners, getDev devs2 e.1 = getDev devs e.1) →
    firedSpec devs2 data owners = firedSpec devs data owners := by
  intro owners
  induction owners with
  | nil => intro devs devs2 _; rfl
  | cons e rest ih =>
    intro devs devs2 h
    have he : getDev devs2 e.1 = getDev devs e.1 := h e (List.mem_cons_self e rest)
    have ht : firedSpec devs2 data rest = firedSpec devs data rest :=
      ih devs devs2 (fun x hx => h x (List.mem_cons_of_mem e hx))
    simp only [firedSpec]
    rw [he, ht]

theorem any_id_eq_false {rest : List (Nat × Nat)} {i : Nat}
    (h : i ∉ List.map Prod.fst rest) :
    rest.any (fun e => e.1 == i) = false := by
  rw [List.any_eq_false]
  intro x hx
  simp only [beq_iff_eq]
  intro hxi
  exact h (hxi ▸ List.mem_map_of_mem Prod.fst hx)

/-- Characterization of the owner fold of `_handle`: the invoked callbacks
are `firedSpec` of the pre-handle heap, the registry is untouched, and
each device owned by an iterated entry is reset to
`poll_count = 0, unreachable = false, status = data` while all other
devices are untouched. -/
theorem foldl_handleOwner_spec (now : Nat) (data : DDPDict) :
    ∀ (owners : List (Nat × Nat)) (st : DDPProtocol) (fired : List Nat),
    (List.map Prod.fst owners).Nodup →
    ((owners.foldl (handleOwner now data) (st, fired)).2 =
      fired ++ firedSpec st.devices data owners) ∧
    ((owners.foldl (handleOwner now data) (st, fired)).1.callbacks = st.callbacks) ∧
    (∀ i p, getDev st.devices i = some p →
      getDev (owners.foldl (handleOwner now data) (st, fired)).1.devices i =
        some (if owners.any (fun e => e.1 == i) then
                { p with poll_count := 0, unreachable := false, status := some data }
              else p)) := by
  intro owners
  induction owners with
  | nil =>
    intro st fired _
    refine ⟨by simp [firedSpec], rfl, ?_⟩
    intro i p h
    simpa using h
  | cons e rest ih =>
    intro st fired hnodup
    rw [List.map_cons, List.nodup_cons] at hnodup
    obtain ⟨hni, hrest⟩ := hnodup
    rw [List.foldl_cons]
    cases hg : getDev st.devices e.1 with
    | none =>
      have hstep : handleOwner now data (st, fired) e = (st, fired) := by
        simp [handleOwner, hg]
      rw [hstep]
      obtain ⟨ihf, ihc, ihd⟩ := ih st fired hrest
      refine ⟨?_, ihc, ?_⟩
      · rw [ihf]
        simp [firedSpec, hg]
      · intro i p h
        by_cases hei : e.1 = i
        · rw [hei] at hg
          rw [hg] at h
          exact absurd h (by simp)
        · have hbeq : (e.1 == i) = false := by simp [hei]
          rw [ihd i p h]
          simp only [List.any_cons, hbeq, Bool.false_or]
    | some p0 =>
      have hq0 : p0.id = e.1 := getDev_eq_id hg
      have hq : PS5.id { p0 with poll_count := 0, unreachable := false, status := some data }
          = e.1 := hq0
      have hdevs : (handleOwner now data (st, fired) e).1.devices =
          setDev st.devices
            { p0 with poll_count := 0, unreachable := false, status := some data } := by
        simp only [handleOwner, hg]
        by_cases hne : statusNe p0.status data = true
        · rw [if_pos hne]
          by_cases hok : okToStandby p0.status data = true
          · rw [if_pos hok]
          · rw [if_neg hok]
        · rw [if_neg hne]
      have hcbs : (handleOwner now data (st, fired) e).1.callbacks = st.callbacks := by
        simp only [handleOwner, hg]
        by_cases hne : statusNe p0.status data = true
        · rw [if_pos hne]
          by_cases hok : okToStandby p0.status data = true
          · rw [if_pos hok]
          · rw [if_neg hok]
        · rw [if_neg hne]
      have hfired : (handleOwner now data (st, fired) e).2 =
          if statusNe p0.status data then fired ++ [e.2] else fired := by
        simp only [handleOwner, hg]
        by_cases hne : statusNe p0.status data = true
        · rw [if_pos hne, if_pos hne]
        · rw [if_neg hne, if_neg hne]
      have hgother : ∀ x ∈ rest,
          getDev (handleOwner now data (st, fired) e).1.devices x.1 =
            getDev st.devices x.1 := by
        intro x hx
        rw [hdevs]
        refine getDev_setDev_other ?_ st.devices
        rw [hq]
        intro hcontra
        exact hni (hcontra ▸ List.mem_map_of_mem Prod.fst hx)
      rw [show handleOwner now data (st, fired) e =
            ((handleOwner now data (st, fired) e).1,
             (handleOwner now data (st, fired) e).2) from rfl]
      obtain ⟨ihf, ihc, ihd⟩ :=
        ih (handleOwner now data (st, fired) e).1 (handleOwner now data (st, fired) e).2 hrest
      refine ⟨?_, by rw [ihc, hcbs], ?_⟩
      · rw [ihf, hfired]
        rw [firedSpec_congr data rest _ _ hgother]
        simp only [firedSpec, hg]
        by_cases hne : statusNe p0.status data = true
        · rw [if_pos hne, if_pos hne]
          simp
        · rw [if_neg hne, if_neg hne]
      · intro i p h
        by_cases hei : e.1 = i
        · have hgi0 : getDev st.devices i = some p0 := by
            rw [← hei]
            exact hg
          have hp0 : p = p0 := by
            rw [hgi0] at h
            exact (Option.some_inj.mp h).symm
          subst hp0
          have hgi : getDev (handleOwner now data (st, fired) e).1.devices i =
              some { p with poll_count := 0, unreachable := false, status := some data } := by
            rw [hdevs]
            exact getDev_setDev_same _ hgi0 (hq.trans hei)
          have hany : rest.any (fun x => x.1 == i) = false := any_id_eq_false (hei ▸ hni)
          rw [ihd i _ hgi, hany]
          have hbeq2 : (e.1 == i) = true := by simp [hei]
          simp [List.any_cons, hbeq2]
        · have hgi : getDev (handleOwner now data (st, fired) e).1.devices i =
              some p := by
            rw [hdevs]
            rw [getDev_setDev_other (by rw [hq]; exact hei) st.devices]
            exact h
          rw [ihd i p hgi]
          have hbeq : (e.1 == i) = false := by simp [hei]
          simp only [List.any_cons, hbeq, Bool.false_or]

/-- C2: for every datagram decodable to `d` received from a source address
with registered owners, `_handle` succeeds; every owner's device record is
reset to `pollCount = 0`, `unreachable = false` and `status` = the decoded
mapping with `host-ip` attached; and the exact list of invoked callbacks
is `firedSpec` — owner by owner, the callback fires precisely when the new
mapping differs from that owner's previous status under Python dict
equality (so two structurally identical consecutive mappings fire nothing,
while any single differing field fires). -/
theorem handle_registered (st : DDPProtocol) (rsp addr : String) (now : Nat)
    (owners : List (Nat × Nat)) (d : DDPDict)
    (hp : parse_ddp_response rsp = Except.ok d)
    (ho : aget st.callbacks addr = some owners)
    (hnd : (List.map Prod.fst owners).Nodup) :
    ∃ r : HandleResult, handle st rsp addr now = Except.ok r ∧
      (∀ i cb p, (i, cb) ∈ owners → getDev st.devices i = some p →
        getDev r.state.devices i =
          some { p with poll_count := 0, unreachable := false,
                        status := some (dset d keyHostIp (DVal.str addr)) }) ∧
      r.fired = firedSpec st.devices (dset d keyHostIp (DVal.str addr)) owners := by
  obtain ⟨hf, _, hd⟩ :=
    foldl_handleOwner_spec now (dset d keyHostIp (DVal.str addr)) owners st [] hnd
  refine
    ⟨{ state := (owners.foldl (handleOwner now (dset d keyHostIp (DVal.str addr))) (st, [])).1,
       fired := (owners.foldl (handleOwner now (dset d keyHostIp (DVal.str addr))) (st, [])).2 },
     by simp only [handle, hp, ho], ?_, ?_⟩
  · intro i cb p hmem hdev
    have hany : owners.any (fun e => e.1 == i) = true :=
      List.any_eq_true.mpr ⟨(i, cb), hmem, by simp⟩
    have := hd i p hdev
    rw [hany] at this
    simpa using this
  · simpa using hf

/-- Witness for `handle_registered` on a concrete engine with one owner. -/
theorem handle_registered_witness :
    ∃ r : HandleResult,
      handle stW2 ("HTTP/1.1 200 Ok\nhost-id:abc") ("10.0.0.5") 42 = Except.ok r ∧
      (∀ i cb p, (i, cb) ∈ [((0 : Nat), (11 : Nat))] → getDev stW2.devices i = some p →
        getDev r.state.devices i =
          some { p with poll_count := 0, unreachable := false,
                        status := some (dset dW2 keyHostIp (DVal.str ("10.0.0.5"))) }) ∧
      r.fired = firedSpec stW2.devices (dset dW2 keyHostIp (DVal.str ("10.0.0.5"))) [(0, 11)] :=
  handle_registered stW2 ("HTTP/1.1 200 Ok\nhost-id:abc") ("10.0.0.5") 42 [(0, 11)] dW2
    rfl rfl (by decide)

/-!
## C5 — totality of decoding
-/

/-- C5 counterexample: the single-line text `x` is non-empty, matches no
status line and contains no colon, so `values = line.split(':')` has one
element and `values[1]` raises IndexError — decoding does NOT terminate
without raising on every input. -/
theorem parse_raises_on_plain_line : parse_ddp_response ("x") = Except.error () := rfl

theorem splitOnCharAux_ne_nil (c : Char) :
    ∀ (cs acc : List Char), splitOnCharAux c cs acc ≠ [] := by
  intro cs
  induction cs with
  | nil => intro acc; simp [splitOnCharAux]
  | cons x xs ih =>
    intro acc
    simp only [splitOnCharAux]
    split
    · simp
    · exact ih (x :: acc)

theorem splitOnCharAux_length_ge_two (c : Char) :
    ∀ (cs acc : List Char), c ∈ cs → 2 ≤ (splitOnCharAux c cs acc).length := by
  intro cs
  induction cs with
  | nil => intro acc h; simp at h
  | cons x xs ih =>
    intro acc h
    simp only [splitOnCharAux]
    by_cases hx : x = c
    · rw [if_pos hx]
      cases hl : splitOnCharAux c xs [] with
      | nil => exact absurd hl (splitOnCharAux_ne_nil c xs [])
      | cons y ys => simp
    · rw [if_neg hx]
      rcases List.mem_cons.mp h with h1 | h2
      · exact absurd h1.symm hx
      · exact ih (x :: acc) h2

theorem splitOnChar_two (c : Char) (cs : List Char) (h : c ∈ cs) :
    ∃ v0 v1 t, splitOnChar c cs = v0 :: v1 :: t := by
  have h2 := splitOnCharAux_length_ge_two c cs [] h
  cases hs : splitOnCharAux c cs [] with
  | nil => exact absurd hs (splitOnCharAux_ne_nil c cs [])
  | cons v0 t =>
    cases t with
    | nil => rw [hs] at h2; simp at h2
    | cons v1 t2 => exact ⟨v0, v1, t2, hs⟩

theorem processLine_ok (acc : DDPDict × Option String) (l : String)
    (h : goodLine l = true) :
    ∃ acc2, processLine acc l = Except.ok acc2 := by
  unfold processLine
  by_cases h1 : (pyStrip l).data.isEmpty = true
  · rw [if_pos h1]
    exact ⟨_, rfl⟩
  · rw [if_neg h1]
    cases hm : matchStatusLine (pyStrip l) with
    | some pair =>
      cases pair
      exact ⟨_, rfl⟩
    | none =>
      have h1f : (pyStrip l).data.isEmpty = false := by
        simp only [Bool.not_eq_true] at h1
        exact h1
      have hc : (pyStrip l).data.contains ':' = true := by
        unfold goodLine at h
        rw [hm, h1f] at h
        simpa using h
      have hmem : ':' ∈ (pyStrip l).data := by simpa using hc
      obtain ⟨v0, v1, t, hs⟩ := splitOnChar_two ':' (pyStrip l).data hmem
      simp only [hm, hs, List.map_cons]
      exact ⟨_, rfl⟩

theorem foldlM_processLine_ok :
    ∀ (ls : List String) (acc : DDPDict × Option String),
    (∀ l ∈ ls, goodLine l = true) →
    ∃ r, List.foldlM processLine acc ls = Except.ok r := by
  intro ls
  induction ls with
  | nil => intro acc _; exact ⟨acc, rfl⟩
  | cons l rest ih =>
    intro acc h
    obtain ⟨acc2, hacc⟩ := processLine_ok acc l (h l (List.mem_cons_self l rest))
    obtain ⟨r, hr⟩ := ih acc2 (fun x hx => h x (List.mem_cons_of_mem l hx))
    refine ⟨r, ?_⟩
    rw [List.foldlM_cons, hacc]
    exact hr

/-- C5 (amended): decoding is exception-free only on benign inputs — it
silently skips empty lines, but a non-empty line that is neither a status
line nor contains a colon raises an IndexError that propagates to the
datagram handler (see the counterexample).  On every text whose lines are
each empty once stripped, a status-line match, or colon-carrying, decoding
terminates without raising. -/
theorem parse_ok_of_wellformed (rsp : String)
    (h : ∀ l ∈ pySplitlines rsp, goodLine l = true) :
    ∃ d, parse_ddp_response rsp = Except.ok d := by
  unfold parse_ddp_response
  by_cases hs : pyIn DDP_TYPE_SEARCH rsp = true
  · rw [if_pos hs]
    exact ⟨[], rfl⟩
  · rw [if_neg hs]
    obtain ⟨⟨data, an⟩, hr⟩ := foldlM_processLine_ok (pySplitlines rsp) ([], none) h
    rw [hr]
    cases an with
    | some a => exact ⟨_, rfl⟩
    | none => exact ⟨_, rfl⟩

/-- Witness for `parse_ok_of_wellformed` on a typical status response. -/
theorem parse_ok_of_wellformed_witness :
    ∃ d, parse_ddp_response ("HTTP/1.1 200 Ok\nhost-id:abc\n") = Except.ok d :=
  parse_ok_of_wellformed ("HTTP/1.1 200 Ok\nhost-id:abc\n") (by decide)

/-!
## C6 — encode/decode round trip of the credential
-/

theorem string_data_append (a b : String) : (a ++ b).data = a.data ++ b.data := rfl

theorem splitOnCharAux_concat (c : Char) :
    ∀ (pre rest acc : List Char), c ∉ pre →
    splitOnCharAux c (pre ++ c :: rest) acc =
      (acc.reverse ++ pre) :: splitOnCharAux c rest [] := by
  intro pre
  induction pre with
  | nil =>
    intro rest acc _
    simp [splitOnCharAux]
  | cons x xs ih =>
    intro rest acc h
    have hx : ¬ x = c := by
      intro hxc
      subst hxc
      exact h (List.mem_cons_self x xs)
    rw [List.cons_append]
    simp only [splitOnCharAux]
    rw [if_neg hx]
    rw [ih rest (x :: acc) (fun hc => h (List.mem_cons_of_mem x hc))]
    simp

theorem pySplitlines_shape (s : String) (pre rest : List Char)
    (hdata : s.data = pre ++ '\n' :: rest) (hnl : '\n' ∉ pre) :
    ∃ ls, pySplitlines s = String.mk pre :: ls := by
  have hne : ¬ (s.data.isEmpty = true) := by
    rw [hdata]
    cases pre <;> simp
  have hsp : splitOnChar '\n' s.data = pre :: splitOnCharAux '\n' rest [] := by
    rw [hdata]
    unfold splitOnChar
    rw [splitOnCharAux_concat '\n' pre rest [] hnl]
    simp
  unfold pySplitlines
  rw [if_neg hne, hsp]
  obtain ⟨t0, ts, ht⟩ := List.exists_cons_of_ne_nil (splitOnCharAux_ne_nil '\n' rest [])
  rw [ht]
  unfold dropTrailingEmpty
  by_cases hlast : (pre :: t0 :: ts).getLast? = some []
  · rw [if_pos hlast, List.dropLast_cons₂, List.map_cons]
    exact ⟨_, rfl⟩
  · rw [if_neg hlast, List.map_cons]
    exact ⟨_, rfl⟩

/-- Decoding any text whose first line is colon-free, not a status line
and non-empty fails immediately with IndexError, whatever follows. -/
theorem parse_error_of_first_line (s : String) (pre rest : List Char)
    (hdata : s.data = pre ++ '\n' :: rest)
    (hnl : '\n' ∉ pre)
    (hsrch : pyIn DDP_TYPE_SEARCH s = false)
    (hline : processLine ([], none) (String.mk pre) = Except.error ()) :
    parse_ddp_response s = Except.error () := by
  obtain ⟨ls, hls⟩ := pySplitlines_shape s pre rest hdata hnl
  unfold parse_ddp_response
  rw [hsrch]
  rw [if_neg Bool.false_ne_true]
  rw [hls, List.foldlM_cons, hline]
  rfl

theorem except_bind_ok {α β : Type} (x : α) (f : α → Except Unit β) :
    (Except.ok x : Except Unit α).bind f = f x := rfl

theorem wake_message_eq (credential : String) :
    get_ddp_wake_message credential = Except.ok (wakeMsgText credential) := by
  unfold get_ddp_wake_message get_ddp_message
  rw [if_pos (by decide : DDP_TYPE_WAKEUP ∈ DDP_MSG_TYPES)]
  rfl

theorem launch_message_eq (credential : String) :
    get_ddp_launch_message credential = Except.ok (launchMsgText credential) := by
  unfold get_ddp_launch_message get_ddp_message
  rw [if_pos (by decide : DDP_TYPE_LAUNCH ∈ DDP_MSG_TYPES)]
  rfl

theorem wakeMsgText_data (credential : String) :
    (wakeMsgText credential).data =
      "WAKEUP * HTTP/1.1".data ++ '\n' ::
        ("user-credential".data ++ ":".data ++ credential.data ++ "\n".data ++
         "client-type".data ++ ":".data ++ "a".data ++ "\n".data ++
         "auth-type".data ++ ":".data ++ "C".data ++ "\n".data ++
         "device-discovery-protocol-version:".data ++ DDP_VERSION.data ++ "\n".data) := by
  have hk : DDP_TYPE_WAKEUP.data ++ " * HTTP/1.1\n".data =
      "WAKEUP * HTTP/1.1".data ++ ['\n'] := rfl
  simp only [wakeMsgText, string_data_append, List.append_assoc]
  rw [← List.append_assoc DDP_TYPE_WAKEUP.data, hk]
  simp [List.append_assoc]

theorem launchMsgText_data (credential : String) :
    (launchMsgText credential).data =
      "LAUNCH * HTTP/1.1".data ++ '\n' ::
        ("user-credential".data ++ ":".data ++ credential.data ++ "\n".data ++
         "client-type".data ++ ":".data ++ "a".data ++ "\n".data ++
         "auth-type".data ++ ":".data ++ "C".data ++ "\n".data ++
         "device-discovery-protocol-version:".data ++ DDP_VERSION.data ++ "\n".data) := by
  have hk : DDP_TYPE_LAUNCH.data ++ " * HTTP/1.1\n".data =
      "LAUNCH * HTTP/1.1".data ++ ['\n'] := rfl
  simp only [launchMsgText, string_data_append, List.append_assoc]
  rw [← List.append_assoc DDP_TYPE_LAUNCH.data, hk]
  simp [List.append_assoc]

/-- C6 counterexample: encoding a WAKEUP message with the colon-free
credential `x` and decoding the result raises IndexError at the type line
`WAKEUP * HTTP/1.1` (which contains no colon and is not a status line),
so no mapping — and in particular no `user-credential` entry — is ever
produced: the round trip fails. -/
theorem wake_roundtrip_error_concrete :
    (get_ddp_wake_message ("x")).bind parse_ddp_response = Except.error () := by
  rw [wake_message_eq, except_bind_ok]
  rfl

/-- C6 (amended): for every credential, decoding the encoded WAKEUP or
LAUNCH message never recovers the credential: when the built text contains
the SEARCH token (possible only through the credential) decoding returns
the empty mapping, and otherwise decoding raises IndexError at the
colon-free type line, so the `user-credential` value is lost either way. -/
theorem wake_launch_roundtrip (credential : String) :
    ((get_ddp_wake_message credential).bind parse_ddp_response =
      if pyIn DDP_TYPE_SEARCH (wakeMsgText credential) then Except.ok []
      else Except.error ()) ∧
    ((get_ddp_launch_message credential).bind parse_ddp_response =
      if pyIn DDP_TYPE_SEARCH (launchMsgText credential) then Except.ok []
      else Except.error ()) := by
  constructor
  · rw [wake_message_eq, except_bind_ok]
    by_cases hs : pyIn DDP_TYPE_SEARCH (wakeMsgText credential) = true
    · rw [if_pos hs]
      unfold parse_ddp_response
      rw [hs]
      rfl
    · rw [if_neg hs]
      have hs2 : pyIn DDP_TYPE_SEARCH (wakeMsgText credential) = false := by
        simp at hs
        exact hs
      exact parse_error_of_first_line _ _ _ (wakeMsgText_data credential) (by decide) hs2 rfl
  · rw [launch_message_eq, except_bind_ok]
    by_cases hs : pyIn DDP_TYPE_SEARCH (launchMsgText credential) = true
    · rw [if_pos hs]
      unfold parse_ddp_response
      rw [hs]
      rfl
    · rw [if_neg hs]
      have hs2 : pyIn DDP_TYPE_SEARCH (launchMsgText credential) = false := by
        simp at hs
        exact hs
      exact parse_error_of_first_line _ _ _ (launchMsgText_data credential) (by decide) hs2 rfl

/-- Witness for `wake_launch_roundtrip` at the concrete credential
`abc`: both round trips fail with IndexError. -/
theorem wake_launch_roundtrip_witness :
    ((get_ddp_wake_message ("abc")).bind parse_ddp_response =
      if pyIn DDP_TYPE_SEARCH (wakeMsgText ("abc")) then Except.ok []
      else Except.error ()) ∧
    ((get_ddp_launch_message ("abc")).bind parse_ddp_response =
      if pyIn DDP_TYPE_SEARCH (launchMsgText ("abc")) then Except.ok []
      else Except.error ()) :=
  wake_launch_roundtrip ("abc")

/-!
## C7 — callback removal
-/

/-- C7 counterexample: hosts `h` carries owners 0 (callback 5) and 1
(callback 7); removing owner 0's callback succeeds and leaves owner 1 in
place, but REMOVING IT A SECOND TIME raises KeyError — the inner
`self.callbacks[ps5.host][ps5]` lookup is unguarded while another owner
keeps the host entry alive — refuting the claim that a second removal
leaves the registry unchanged and raises nothing. -/
theorem c7_counterexample :
    remove_callback (add_callback (add_callback [] ("h") 0 5) ("h") 1 7) ("h") 0 5 =
      Except.ok [(("h" : String), [((1 : Nat), (7 : Nat))])] ∧
    remove_callback [(("h" : String), [((1 : Nat), (7 : Nat))])] ("h") 0 5 =
      Except.error () :=
  ⟨rfl, rfl⟩

/-- C7 (amended): removal is a no-op when the host has no registry entry
or when the owner is on record with a different callback; removing one of
two owners of the same host leaves the other owner's callback in place;
removing the last owner of a host drops the host key entirely; BUT
removing an owner that is not on record while the host entry still exists
(e.g. a second removal of an already-removed callback while another owner
remains) raises KeyError. -/
theorem remove_callback_amended :
    (∀ (cbs : Callbacks) (host : String) (i cb : Nat),
      aget cbs host = none → remove_callback cbs host i cb = Except.ok cbs) ∧
    (∀ (cbs : Callbacks) (host : String) (i cb cb2 : Nat) (inner : List (Nat × Nat)),
      aget cbs host = some inner → aget inner i = some cb2 → cb2 ≠ cb →
      remove_callback cbs host i cb = Except.ok cbs) ∧
    (∀ (cbs : Callbacks) (host : String) (i cb : Nat) (inner : List (Nat × Nat)),
      aget cbs host = some inner → aget inner i = none →
      remove_callback cbs host i cb = Except.error ()) ∧
    (∀ (host : String) (i j cbi cbj : Nat), i ≠ j →
      remove_callback (add_callback (add_callback [] host i cbi) host j cbj) host i cbi =
        Except.ok [(host, [(j, cbj)])]) ∧
    (∀ (host : String) (i cb : Nat),
      remove_callback (add_callback [] host i cb) host i cb = Except.ok []) := by
  refine ⟨?_, ?_, ?_, ?_, ?_⟩
  · intro cbs host i cb h
    simp [remove_callback, h]
  · intro cbs host i cb cb2 inner h1 h2 hne
    simp [remove_callback, h1, h2, hne]
  · intro cbs host i cb inner h1 h2
    simp [remove_callback, h1, h2]
  · intro host i j cbi cbj hij
    simp [add_callback, remove_callback, aget, aset, apop, hij, Ne.symm hij]
  · intro host i cb
    simp [add_callback, remove_callback, aget, aset, apop]

/-- Witness for `remove_callback_amended`: removing owner 0 of two owners
on host `h` keeps owner 1's callback and the host entry. -/
theorem remove_callback_amended_witness :
    remove_callback (add_callback (add_callback [] ("h") 0 5) ("h") 1 7) ("h") 0 5 =
      Except.ok [(("h" : String), [((1 : Nat), (7 : Nat))])] :=
  remove_callback_amended.2.2.2.1 ("h") 0 1 5 7 (by decide)

/-!
## C8 — one-shot search deduplication
-/

/-- C8 (code bug): two IDENTICAL response datagrams from the same address
both end up in the returned list — the `data not in ps_list` test compares
the freshly parsed mapping (without `host-ip`) against entries that were
already decorated with `host-ip`, so it never matches and the intended
deduplication is dead code: the result contains two equal mappings. -/
theorem search_duplicate_not_deduped :
    search [some (rspC8, "10.0.0.1"), some (rspC8, "10.0.0.1")] true =
      Except.ok [dC8, dC8] :=
  rfl

/-!
## C9 — SEARCH token short-circuits decoding
-/

/-- C9: every text containing the SEARCH type token anywhere decodes to
the empty mapping, regardless of any status line or key:value content
also present. -/
theorem parse_srch_empty (rsp : String) (h : pyIn DDP_TYPE_SEARCH rsp = true) :
    parse_ddp_response rsp = Except.ok [] := by
  unfold parse_ddp_response
  rw [h]
  rfl

/-- Witness for `parse_srch_empty` on a text with a status line and
key:value content after the token. -/
theorem parse_srch_empty_witness :
    parse_ddp_response ("xx SRCH yy HTTP/1.1 200 Ok\nfoo:bar") = Except.ok [] :=
  parse_srch_empty ("xx SRCH yy HTTP/1.1 200 Ok\nfoo:bar") (by decide)

/-!
## C10 — datagram from an unregistered source is a no-op
-/

/-- C10: a datagram from a source address with no registered callbacks
leaves the entire engine state unchanged and invokes no callback for every
datagram content: `_handle` either returns with the state exactly as it
was, or (for undecodable content) merely propagates the decode exception,
raised before any state is touched. -/
theorem handle_unregistered_noop (st : DDPProtocol) (rsp addr : String) (now : Nat)
    (h : aget st.callbacks addr = none) :
    handle st rsp addr now =
      (parse_ddp_response rsp).map (fun _ => { state := st, fired := [] }) := by
  unfold handle
  cases hp : parse_ddp_response rsp with
  | error e => rfl
  | ok d =>
    simp only [h]
    rfl

/-- Witness for `handle_unregistered_noop`: a well-formed status datagram
from an address nobody registered for. -/
theorem handle_unregistered_noop_witness :
    handle stC10 ("HTTP/1.1 200 Ok\nhost-id:abc") ("9.9.9.9") 3 =
      (parse_ddp_response ("HTTP/1.1 200 Ok\nhost-id:abc")).map
        (fun _ => { state := stC10, fired := [] }) :=
  handle_unregistered_noop stC10 ("HTTP/1.1 200 Ok\nhost-id:abc") ("9.9.9.9") 3 rfl
